import Mathlib

/-!
Verification of the Alert_Hub backend (`src/backend/app.py`) against its
natural-language specification.  The Python handlers are shallowly embedded:
JSON values become an inductive type, query parameters become `Option String`
(absent vs. present), the outcome of the single upstream HTTP call becomes an
explicit argument, and a Python expression that can raise an uncaught
exception becomes an `Except PyErr` result.  Coordinates are modelled as
rationals: every bounding-box endpoint of the source is a decimal literal and
all interval tests in the claims are robust to the float/rational distinction.
-/

/-- A JSON value, as produced by Flask's `jsonify` and `resp.json()`.
Object fields are kept in insertion order, exactly as the Python dict
literals of the source write them. -/
inductive Json : Type where
  | null : Json
  | bool : Bool → Json
  | num : Int → Json
  | str : String → Json
  | arr : List Json → Json
  | obj : List (String × Json) → Json

/-- The uncaught Python exceptions the embedded handlers can surface. -/
inductive PyErr : Type where
  | attributeError : PyErr
  | valueError : PyErr
  | typeError : PyErr
deriving DecidableEq

/-- An HTTP response: status code and JSON body.  Flask's `jsonify` with no
explicit status yields 200. -/
structure HttpResp : Type where
  status : Nat
  body : Json

/-- First-match association-list lookup: the access a Python dict with the
unique keys of the source performs. -/
def alookup (k : String) : List (String × Json) → Option Json
  | [] => none
  | kv :: t => if kv.1 == k then some kv.2 else alookup k t

/-- Read a field of a JSON object (used to state properties of response
bodies); `none` on a non-object or an absent key. -/
def jGet (j : Json) (k : String) : Option Json :=
  match j with
  | Json.obj kvs => alookup k kvs
  | _ => none

/-- Python's `d.get(key, default)`: raises `AttributeError` when the receiver
is not a dict, otherwise the value or the default. -/
def pyDictGet (j : Json) (k : String) (d : Json) : Except PyErr Json :=
  match j with
  | Json.obj kvs => Except.ok ((alookup k kvs).getD d)
  | _ => Except.error PyErr.attributeError

/-- Truthiness of `request.args.get(name)`: an absent parameter is `None`
(falsy) and an empty string is falsy too. -/
def truthy : Option String → Bool
  | none => false
  | some s => !(s == "")

/-- The shared 400 body `{"error": "lat and lon are required"}`. -/
def errBody : Json := Json.obj [("error", Json.str "lat and lon are required")]

/-! ### The HTTP fetch helper `safe_get` (app.py lines 21-27)

The helper issues one `requests.get` and calls `resp.raise_for_status()`,
which raises exactly for status codes in `[400, 600)`; every exception is
caught and collapsed to `None`.  The outside world is modelled as a sequence
of per-attempt outcomes `Nat → FetchOutcome`; the helper consumes attempt 0
only (no retries). -/

/-- What one GET attempt can do: raise inside `requests.get` (connection
failure, timeout, malformed response), or deliver a response with a status
code and a body. -/
inductive FetchOutcome : Type where
  | raises : FetchOutcome
  | response (status : Nat) (body : String) : FetchOutcome

/-- `requests.Response.raise_for_status` raises exactly for 4xx and 5xx. -/
def raiseForStatus (status : Nat) : Bool :=
  decide (400 ≤ status) && decide (status < 600)

/-- `safe_get` (app.py lines 21-27): one attempt, exception-free result. -/
def safe_get (attempt : Nat → FetchOutcome) : Option (Nat × String) :=
  match attempt 0 with
  | FetchOutcome.raises => none
  | FetchOutcome.response s b => if raiseForStatus s then none else some (s, b)

/-- Modelled from the spec's words for comparison with `safe_get`: "returns
the successful response (status 2xx) or signals unavailable ... for
non-2xx status". -/
def safe_get_specTwoXX (attempt : Nat → FetchOutcome) : Option (Nat × String) :=
  match attempt 0 with
  | FetchOutcome.raises => none
  | FetchOutcome.response s b =>
      if 200 ≤ s ∧ s < 300 then some (s, b) else none

/-! ### The weather endpoint `get_weather` (app.py lines 50-73)

`upstream` is the outcome of `safe_get` on the forecast URL, already parsed
by `resp.json()`: `none` when `safe_get` returned `None`, `some d` for the
parsed JSON document otherwise.  `data.get("current", {})` on a non-dict
document raises `AttributeError`, which the handler does not catch. -/

def get_weather (lat lon : Option String) (upstream : Option Json) :
    Except PyErr HttpResp :=
  if !truthy lat || !truthy lon then
    Except.ok ⟨400, errBody⟩
  else
    match upstream with
    | none =>
        Except.ok ⟨502, Json.obj [("current", Json.null),
          ("source", Json.str "open-meteo"), ("note", Json.str "unavailable")]⟩
    | some d =>
        match pyDictGet d "current" (Json.obj []) with
        | Except.error e => Except.error e
        | Except.ok cur =>
            Except.ok ⟨200, Json.obj [("current", cur),
              ("source", Json.str "open-meteo")]⟩

/-! ### The alerts endpoint `get_alerts` (app.py lines 76-104)

The whole parse of the upstream body (`nws.json().get("features", [])`, the
`for` loop and every per-feature `.get`) sits inside one `try` whose handler
rebinds `alerts = []`: any exception discards all alerts appended so far. -/

/-- Python iteration `for f in features`: list elements, the characters of a
string (as 1-character strings), the keys of a dict; anything else raises
`TypeError`. -/
def asIterList : Json → Except PyErr (List Json)
  | Json.arr xs => Except.ok xs
  | Json.str s => Except.ok (s.data.map (fun c => Json.str (String.mk [c])))
  | Json.obj kvs => Except.ok (kvs.map (fun kv => Json.str kv.1))
  | _ => Except.error PyErr.typeError

/-- `nws.json().get("features", [])` followed by the start of the `for` loop:
the list the loop ranges over, or the exception the `try` will catch. -/
def jFeatures (d : Json) : Except PyErr (List Json) :=
  match pyDictGet d "features" (Json.arr []) with
  | Except.error e => Except.error e
  | Except.ok fv => asIterList fv

/-- The dict literal built for one feature (app.py lines 90-100).
`f.get(...)` raises when `f` is not a dict, and `props.get(...)` raises when
`f.get("properties", {})` returned a non-dict; the result in either case is
the exception the surrounding `try` catches, so only the error's presence is
observable. -/
def projectFeature (f : Json) : Except PyErr Json :=
  match f with
  | Json.obj fkvs =>
      match (alookup "properties" fkvs).getD (Json.obj []) with
      | Json.obj pkvs =>
          Except.ok (Json.obj
            [("id", (alookup "id" fkvs).getD Json.null),
             ("event", (alookup "event" pkvs).getD Json.null),
             ("headline", (alookup "headline" pkvs).getD Json.null),
             ("areaDesc", (alookup "areaDesc" pkvs).getD Json.null),
             ("severity", (alookup "severity" pkvs).getD Json.null),
             ("urgency", (alookup "urgency" pkvs).getD Json.null),
             ("effective", (alookup "effective" pkvs).getD Json.null),
             ("expires", (alookup "expires" pkvs).getD Json.null),
             ("instruction", (alookup "instruction" pkvs).getD Json.null)])
      | _ => Except.error PyErr.attributeError
  | _ => Except.error PyErr.attributeError

/-- The append loop: all features project, in order, or the first exception
escapes to the `try` handler (which then discards every appended record). -/
def mapME {α β : Type} (g : α → Except PyErr β) : List α → Except PyErr (List β)
  | [] => Except.ok []
  | a :: t =>
      match g a with
      | Except.error e => Except.error e
      | Except.ok b =>
          match mapME g t with
          | Except.error e => Except.error e
          | Except.ok bs => Except.ok (b :: bs)

/-- The body of the `try` (app.py lines 87-100): the full alert list, or the
exception that makes the handler rebind `alerts = []`. -/
def alertsOfJson (d : Json) : Except PyErr (List Json) :=
  match jFeatures d with
  | Except.error e => Except.error e
  | Except.ok fs => mapME projectFeature fs

/-- `get_alerts` (app.py lines 76-104).  `upstream` is the parsed body of the
NWS call when `safe_get` succeeded, `none` otherwise.  The handler is total:
every parse exception is caught. -/
def get_alerts (lat lon : Option String) (upstream : Option Json) : HttpResp :=
  if !truthy lat || !truthy lon then
    ⟨400, errBody⟩
  else
    let alerts : List Json :=
      match upstream with
      | none => []
      | some d =>
          match alertsOfJson d with
          | Except.ok l => l
          | Except.error _ => []
    ⟨200, Json.obj [("alerts", Json.arr alerts), ("source", Json.str "NWS")]⟩

/-! ### The AMBER feed extraction (app.py lines 107-133)

The source scans the raw body with `str.split`, `str.find` and slicing; the
model mirrors those string primitives on `List Char`. -/

/-- Python `haystack.find(pat)`: index of the leftmost occurrence, `none`
standing for Python's `-1`. -/
def findSub : List Char → List Char → Option Nat
  | [], pat => if pat.isEmpty then some 0 else none
  | c :: rest, pat =>
      if pat.isPrefixOf (c :: rest) then some 0
      else (findSub rest pat).map (· + 1)

/-- Python `l[a:b]` for nonnegative bounds: clamps, and is empty when
`b ≤ a`. -/
def sliceChars (l : List Char) (a b : Nat) : List Char :=
  (l.take b).drop a

/-- The characters Python's default `str.strip` removes (ASCII whitespace;
the feed model never strips non-ASCII). -/
def isSpaceChar (c : Char) : Bool :=
  c == ' ' || c == '\t' || c == '\n' || c == '\r' || c == '\x0b' || c == '\x0c'

/-- Python `s.strip()`. -/
def stripChars (l : List Char) : List Char :=
  ((l.dropWhile isSpaceChar).reverse.dropWhile isSpaceChar).reverse

/-- Worker for `splitOnSub`; the fuel is the haystack length, and every step
consumes at least one haystack character, so the fuel-exhausted branch is
unreachable from `splitOnSub`. -/
def splitFrom : Nat → List Char → List Char → List Char → List (List Char)
  | _, [], _, acc => [acc.reverse]
  | 0, l, _, acc => [acc.reverse ++ l]
  | fuel + 1, c :: rest, pat, acc =>
      if pat.isPrefixOf (c :: rest) then
        acc.reverse :: splitFrom fuel (rest.drop (pat.length - 1)) pat []
      else
        splitFrom fuel rest pat (c :: acc)

/-- Python `s.split(sep)` for a nonempty separator (the source only splits on
the literal item tag): leftmost, non-overlapping occurrences. -/
def splitOnSub (l pat : List Char) : List (List Char) :=
  if pat.isEmpty then [l] else splitFrom l.length l pat []

/-- One extracted missing-person bulletin. -/
structure FeedItem : Type where
  title : String
  link : String
  description : String
deriving DecidableEq

/-- The per-chunk extraction (app.py lines 119-131): substring search for
each delimiter pair, slicing past the opening tag (7, 6 and 13 characters),
strip, and the source's defaults when a pair is incomplete. -/
def extractItem (chunk : List Char) : FeedItem :=
  { title :=
      match findSub chunk "<title>".data, findSub chunk "</title>".data with
      | some a, some b => String.mk (stripChars (sliceChars chunk (a + 7) b))
      | _, _ => "AMBER Alert"
    link :=
      match findSub chunk "<link>".data, findSub chunk "</link>".data with
      | some a, some b => String.mk (stripChars (sliceChars chunk (a + 6) b))
      | _, _ => ""
    description :=
      match findSub chunk "<description>".data, findSub chunk "</description>".data with
      | some a, some b => String.mk (stripChars (sliceChars chunk (a + 13) b))
      | _, _ => "" }

/-- The feed-extraction routine of `get_amber` (app.py lines 115-131):
`text.split("<item>")[1:]`, then one `FeedItem` per chunk. -/
def parseAmberItems (text : String) : List FeedItem :=
  ((splitOnSub text.data "<item>".data).drop 1).map extractItem

/-! ### The crime endpoint `get_crime` (app.py lines 180-379)

The coordinate-to-state mapping is an `elif` chain of closed bounding boxes,
embedded as an ordered list scanned for the first match, followed by the
Phoenix-area catch-all that runs only when nothing matched. -/

/-- One hardcoded axis-aligned bounding box (closed intervals). -/
structure Box : Type where
  latLo : Rat
  latHi : Rat
  lonLo : Rat
  lonHi : Rat
deriving DecidableEq

/-- One predicate of the chain: `latLo <= lat_f <= latHi and
lonLo <= lon_f <= lonHi`. -/
def inBox (b : Box) (la lo : Rat) : Bool :=
  decide (b.latLo ≤ la) && decide (la ≤ b.latHi) &&
    decide (b.lonLo ≤ lo) && decide (lo ≤ b.lonHi)

/-- The `elif` chain of app.py lines 193-286, in source order, duplicates
(`AZ` twice, `FL` twice) included. -/
def stateBoxes : List (Box × String) :=
  [(⟨24.5, 31, -87.6, -80⟩, "FL"),
   (⟨30, 35, -88, -80⟩, "GA"),
   (⟨32, 35, -88, -80⟩, "SC"),
   (⟨33, 36, -84, -75⟩, "NC"),
   (⟨36, 39, -84, -75⟩, "VA"),
   (⟨38, 40, -79, -75⟩, "MD"),
   (⟨39, 42, -80, -74⟩, "PA"),
   (⟨40, 45, -79, -71⟩, "NY"),
   (⟨41, 42, -73, -71⟩, "CT"),
   (⟨41, 43, -72, -70⟩, "MA"),
   (⟨43, 45, -72, -70⟩, "VT"),
   (⟨43, 47, -71, -66⟩, "ME"),
   (⟨40, 42, -75, -73⟩, "NJ"),
   (⟨38, 40, -75, -73⟩, "DE"),
   (⟨31, 37, -114, -109⟩, "AZ"),
   (⟨31, 37, -115, -108⟩, "AZ"),
   (⟨31, 37, -109, -103⟩, "NM"),
   (⟨25, 36, -106, -93⟩, "TX"),
   (⟨33, 37, -94, -89⟩, "AR"),
   (⟨30, 35, -94, -88⟩, "LA"),
   (⟨30, 35, -91, -88⟩, "MS"),
   (⟨30, 35, -88, -84⟩, "AL"),
   (⟨24, 31, -87, -80⟩, "FL"),
   (⟨40, 42, -84, -80⟩, "OH"),
   (⟨37, 40, -85, -81⟩, "WV"),
   (⟨36, 39, -85, -81⟩, "KY"),
   (⟨35, 37, -90, -81⟩, "TN"),
   (⟨38, 40, -88, -84⟩, "IN"),
   (⟨37, 42, -91, -87⟩, "IL"),
   (⟨40, 43, -96, -90⟩, "IA"),
   (⟨42, 47, -97, -89⟩, "WI"),
   (⟨43, 49, -97, -89⟩, "MN"),
   (⟨40, 43, -104, -95⟩, "NE"),
   (⟨38, 40, -102, -94⟩, "KS"),
   (⟨35, 37, -103, -94⟩, "OK"),
   (⟨36, 42, -120, -114⟩, "NV"),
   (⟨32, 42, -124, -114⟩, "CA"),
   (⟨45, 49, -125, -116⟩, "WA"),
   (⟨42, 46, -125, -116⟩, "OR"),
   (⟨40, 45, -111, -104⟩, "CO"),
   (⟨41, 45, -112, -104⟩, "UT"),
   (⟨42, 49, -117, -104⟩, "MT"),
   (⟨44, 49, -117, -104⟩, "ND"),
   (⟨43, 46, -104, -96⟩, "SD"),
   (⟨40, 43, -104, -95⟩, "WY"),
   (⟨45, 49, -125, -66⟩, "AK"),
   (⟨18, 22, -162, -154⟩, "HI")]

/-- The Phoenix-area catch-all box (app.py line 290), checked only when the
chain left `state_abbr` at `None`. -/
def phoenixBox : Box := ⟨33, 34, -112.5, -111⟩

/-- First match of a Boolean predicate in an ordered list: the value of an
`elif` chain over the same predicates. -/
def firstMatch {α : Type} (p : α → Bool) : List α → Option α
  | [] => none
  | a :: t => if p a then some a else firstMatch p t

/-- The `elif` chain alone (app.py lines 193-286): the first matching box's
code, else `None`. -/
def classifyMain (la lo : Rat) : Option String :=
  (firstMatch (fun e => inBox e.1 la lo) stateBoxes).map (fun e => e.2)

/-- The full classifier (app.py lines 193-291): the chain, then the
Phoenix-area catch-all when nothing matched. -/
def classifyState (la lo : Rat) : Option String :=
  match classifyMain la lo with
  | some s => some s
  | none => if inBox phoenixBox la lo then some "AZ" else none

/-- One record of the statistics table, fields in the source's key order. -/
def crimeRec (h r aa b l m v p : Int) : Json :=
  Json.obj [("homicide", Json.num h), ("robbery", Json.num r),
    ("aggravated_assault", Json.num aa), ("burglary", Json.num b),
    ("larceny", Json.num l), ("motor_vehicle_theft", Json.num m),
    ("violent_crime", Json.num v), ("property_crime", Json.num p)]

/-- `state_crime_rates` (app.py lines 298-349), entries in source order. -/
def state_crime_rates : List (String × Json) :=
  [("NY", crimeRec 5 120 180 280 1200 150 305 1630),
   ("CA", crimeRec 4 95 220 320 1400 280 319 2000),
   ("TX", crimeRec 6 110 250 350 1100 200 366 1650),
   ("FL", crimeRec 7 130 200 300 1000 180 337 1480),
   ("AZ", crimeRec 8 140 280 400 900 250 428 1550),
   ("IL", crimeRec 9 150 300 450 800 220 459 1470),
   ("PA", crimeRec 5 100 180 250 700 150 285 1100),
   ("OH", crimeRec 6 110 200 280 750 160 316 1190),
   ("GA", crimeRec 7 120 220 320 850 180 347 1350),
   ("NC", crimeRec 6 105 190 270 720 140 301 1130),
   ("MI", crimeRec 8 125 240 350 780 200 373 1330),
   ("NJ", crimeRec 4 90 160 220 650 120 254 990),
   ("VA", crimeRec 5 95 170 240 680 130 270 1050),
   ("WA", crimeRec 4 85 150 200 600 110 239 910),
   ("MA", crimeRec 3 80 140 180 550 100 223 830),
   ("TN", crimeRec 7 115 210 290 760 170 332 1220),
   ("IN", crimeRec 6 100 180 260 700 150 286 1110),
   ("MO", crimeRec 8 130 250 340 820 190 388 1350),
   ("MD", crimeRec 9 140 270 380 900 210 419 1490),
   ("WI", crimeRec 5 90 160 220 620 120 255 960),
   ("CO", crimeRec 4 85 150 200 580 110 239 890),
   ("MN", crimeRec 3 75 130 180 520 100 208 800),
   ("SC", crimeRec 8 125 230 320 800 180 363 1300),
   ("AL", crimeRec 9 135 260 360 850 200 404 1420),
   ("LA", crimeRec 12 160 320 420 950 250 492 1620),
   ("KY", crimeRec 6 105 190 270 720 150 301 1140),
   ("OR", crimeRec 4 80 140 190 560 110 224 860),
   ("OK", crimeRec 7 115 220 300 750 170 342 1220),
   ("CT", crimeRec 3 70 120 160 480 90 193 730),
   ("UT", crimeRec 2 60 100 140 400 80 162 620),
   ("IA", crimeRec 2 55 90 120 350 70 147 540),
   ("NV", crimeRec 6 110 200 280 700 160 316 1140),
   ("AR", crimeRec 8 125 240 330 780 180 373 1290),
   ("MS", crimeRec 10 145 280 380 900 220 435 1500),
   ("KS", crimeRec 5 90 160 220 620 130 255 970),
   ("NM", crimeRec 8 130 250 340 800 190 388 1330),
   ("NE", crimeRec 3 65 110 150 420 90 178 660),
   ("WV", crimeRec 6 100 180 250 680 140 286 1070),
   ("ID", crimeRec 2 50 80 110 320 60 132 490),
   ("HI", crimeRec 2 45 70 100 280 50 117 430),
   ("NH", crimeRec 1 40 60 80 240 40 101 360),
   ("ME", crimeRec 1 35 50 70 200 35 86 305),
   ("MT", crimeRec 2 45 70 90 260 50 117 400),
   ("RI", crimeRec 2 50 80 100 300 60 132 460),
   ("DE", crimeRec 4 70 120 160 480 100 194 740),
   ("SD", crimeRec 2 40 60 80 220 40 102 340),
   ("ND", crimeRec 1 30 40 60 160 30 71 250),
   ("AK", crimeRec 4 60 100 120 360 80 164 560),
   ("VT", crimeRec 1 25 35 50 140 25 61 215),
   ("WY", crimeRec 1 20 30 40 120 20 51 180)]

/-- The inline default of `state_crime_rates.get(state_abbr, {...})`
(app.py lines 351-354). -/
def inlineDefaultStats : Json := crimeRec 5 100 180 250 700 150 285 1100

/-- The fixed demo record of the fallback branch (app.py lines 368-378),
`year` included. -/
def demoStats : Json :=
  Json.obj [("homicide", Json.num 3), ("robbery", Json.num 55),
    ("aggravated_assault", Json.num 210), ("burglary", Json.num 230),
    ("larceny", Json.num 900), ("motor_vehicle_theft", Json.num 220),
    ("violent_crime", Json.num 420), ("property_crime", Json.num 1350),
    ("year", Json.num 2023)]

/-- `jsonify` of an optional string: `None` becomes JSON null. -/
def jsonOfOptStr : Option String → Json
  | none => Json.null
  | some s => Json.str s

/-- The demo fallback response (app.py lines 364-379); the `state` field
republishes `state_abbr` as the source does, whatever it holds. -/
def crimeDemoResp (st : Option String) : HttpResp :=
  ⟨200, Json.obj [("scope", Json.str "demo"), ("source", Json.str "demo"),
    ("state", jsonOfOptStr st), ("stats", demoStats)]⟩

/-- The crime handler after the numeric conversion succeeded
(app.py lines 190-379). -/
def get_crime_core (la lo : Rat) : HttpResp :=
  match classifyState la lo with
  | some c =>
      if c.length = 2 then
        ⟨200, Json.obj [("scope", Json.str "state"), ("source", Json.str "mock"),
          ("state", Json.str c),
          ("stats", (alookup c state_crime_rates).getD inlineDefaultStats)]⟩
      else crimeDemoResp (some c)
  | none => crimeDemoResp none

/-- `get_crime` (app.py lines 180-379) at the string level.  `pf` stands for
Python's `float(...)` conversion on strings (`none` = `ValueError`); the
source calls it outside any `try`, so a failed parse escapes the handler,
modelled as `Except.error`. -/
def get_crime (pf : String → Option Rat) (lat lon : Option String) :
    Except PyErr HttpResp :=
  if !truthy lat || !truthy lon then
    Except.ok ⟨400, errBody⟩
  else
    match pf (lat.getD ""), pf (lon.getD "") with
    | some la, some lo => Except.ok (get_crime_core la lo)
    | _, _ => Except.error PyErr.valueError

/-- Value of a digit string. -/
def digitsToNat (ds : List Char) : Nat :=
  ds.foldl (fun n c => n * 10 + (c.toNat - 48)) 0

/-- Modelled from Python's `float(...)` builtin, restricted to plain decimal
numerals (optional sign, digits, optional fractional part); it is used only
to evaluate the embedding at concrete inputs, all of which are either such
numerals or strings `float` rejects. -/
def parseDec (s : String) : Option Rat :=
  let signed : Rat × List Char :=
    match s.data with
    | '-' :: r => (-1, r)
    | '+' :: r => (1, r)
    | r => (1, r)
  let intPart := signed.2.takeWhile Char.isDigit
  let rest := signed.2.dropWhile Char.isDigit
  match rest with
  | [] =>
      if intPart.isEmpty then none
      else some (signed.1 * (digitsToNat intPart : Rat))
  | '.' :: frac =>
      if frac.all Char.isDigit && !(intPart.isEmpty && frac.isEmpty) then
        some (signed.1 * ((digitsToNat intPart : Rat) +
          (digitsToNat frac : Rat) / ((10 : Rat) ^ frac.length)))
      else none
  | _ => none

/-! ### Helper lemmas -/

/-- A successful first match is a member satisfying the predicate. -/
theorem firstMatch_mem {α : Type} (p : α → Bool) :
    ∀ (l : List α) (a : α), firstMatch p l = some a → a ∈ l ∧ p a = true := by
  intro l
  induction l with
  | nil => intro a h; exact absurd h (by simp [firstMatch])
  | cons b t ih =>
      intro a h
      cases hpb : p b
      · have h2 : firstMatch p t = some a := by simpa [firstMatch, hpb] using h
        rcases ih a h2 with ⟨hmem, hpa⟩
        exact ⟨List.mem_cons_of_mem b hmem, hpa⟩
      · have hba : b = a := by simpa [firstMatch, hpb] using h
        subst hba
        exact ⟨List.mem_cons_self b t, hpb⟩

/-- When the scan finds nothing, no member satisfies the predicate. -/
theorem firstMatch_none {α : Type} (p : α → Bool) :
    ∀ (l : List α), firstMatch p l = none → ∀ a ∈ l, p a = false := by
  intro l
  induction l with
  | nil => intro _ a ha; cases ha
  | cons b t ih =>
      intro h a ha
      cases hpb : p b
      · have h2 : firstMatch p t = none := by simpa [firstMatch, hpb] using h
        rcases List.mem_cons.mp ha with rfl | hat
        · exact hpb
        · exact ih h2 a hat
      · exact absurd h (by simp [firstMatch, hpb])

/-- The scan returns the entry at the least matching index. -/
theorem firstMatch_first {α : Type} (p : α → Bool) :
    ∀ (l : List α) (i : Nat) (a : α), l.get? i = some a → p a = true →
      (∀ k b, k < i → l.get? k = some b → p b = false) →
      firstMatch p l = some a := by
  intro l
  induction l with
  | nil => intro i a hg; simp at hg
  | cons c t ih =>
      intro i a hg hp hfirst
      cases i with
      | zero =>
          have hca : c = a := by simpa using hg
          subst hca
          simp [firstMatch, hp]
      | succ n =>
          have hc : p c = false := hfirst 0 c (Nat.succ_pos n) rfl
          have hg2 : t.get? n = some a := by simpa using hg
          have hfirst2 : ∀ k b, k < n → t.get? k = some b → p b = false :=
            fun k b hk hgk => hfirst (k + 1) b (Nat.succ_lt_succ hk) (by simpa using hgk)
          simp only [firstMatch, hc, Bool.false_eq_true, if_false]
          exact ih n a hg2 hp hfirst2

/-- If one element of the loop raises, the whole loop raises. -/
theorem mapME_error_of_mem {α β : Type} (g : α → Except PyErr β) :
    ∀ (l : List α) (a : α), a ∈ l → (∃ e, g a = Except.error e) →
      ∃ e2, mapME g l = Except.error e2 := by
  intro l
  induction l with
  | nil => intro a ha; cases ha
  | cons b t ih =>
      rintro a ha ⟨e, he⟩
      cases hgb : g b with
      | error eb => exact ⟨eb, by simp [mapME, hgb]⟩
      | ok vb =>
          rcases List.mem_cons.mp ha with rfl | hat
          · rw [hgb] at he; cases he
          · rcases ih a hat ⟨e, he⟩ with ⟨e2, h2⟩
            exact ⟨e2, by simp [mapME, hgb, h2]⟩

/-- A value an association lookup returns is one of the list's values. -/
theorem alookup_mem_snd :
    ∀ (l : List (String × Json)) (k : String) (v : Json),
      alookup k l = some v → v ∈ l.map Prod.snd := by
  intro l
  induction l with
  | nil => intro k v h; cases h
  | cons kv t ih =>
      intro k v h
      cases hk : (kv.1 == k)
      · have h2 : alookup k t = some v := by simpa [alookup, hk] using h
        exact List.mem_cons_of_mem _ (ih k v h2)
      · have hv : kv.2 = v := by simpa [alookup, hk] using h
        subst hv
        exact List.mem_cons_self _ _

/-- Unfolding of `inBox` into the four interval bounds. -/
theorem inBox_iff (b : Box) (la lo : Rat) :
    inBox b la lo = true ↔
      b.latLo ≤ la ∧ la ≤ b.latHi ∧ b.lonLo ≤ lo ∧ lo ≤ b.lonHi := by
  simp [inBox, Bool.and_eq_true, decide_eq_true_eq, and_assoc]

/-- Every region code the classifier can resolve. -/
def classifierCodes : List String := stateBoxes.map (fun e => e.2) ++ ["AZ"]

/-- A resolved code comes from the box list or from the catch-all. -/
theorem classifyState_mem_codes (la lo : Rat) (c : String)
    (h : classifyState la lo = some c) : c ∈ classifierCodes := by
  unfold classifyState at h
  cases hm : classifyMain la lo with
  | some s =>
      rw [hm] at h
      injection h with h
      subst h
      unfold classifyMain at hm
      rcases Option.map_eq_some'.mp hm with ⟨e, hfe, hec⟩
      rcases firstMatch_mem _ _ _ hfe with ⟨hmem, _⟩
      subst hec
      exact List.mem_append_left _ (List.mem_map_of_mem _ hmem)
  | none =>
      rw [hm] at h
      cases hpb : inBox phoenixBox la lo
      · rw [hpb] at h; cases h
      · rw [hpb] at h
        simp only [if_true] at h
        injection h with h
        subst h
        exact List.mem_append_right _ (by simp)

/-- Every resolvable code is two letters long and is a key of the
statistics table. -/
theorem classifierCodes_ok :
    classifierCodes.all
      (fun s => (s.length == 2) && (alookup s state_crime_rates).isSome) = true := by
  decide

/-- No record of the statistics table carries a `year` field. -/
theorem stats_values_no_year :
    (state_crime_rates.map Prod.snd).all (fun v => (jGet v "year").isNone) = true := by
  decide

/-! ### The claims -/

/-- Claim C1: for every request to the weather, alerts or crime endpoint in
which either the lat or the lon query parameter is missing, the endpoint
returns status 400 with a JSON error body, regardless of which of the two
parameters is missing. -/
theorem c1_missing_coord_yields_400 (lat lon : Option String)
    (h : lat = none ∨ lon = none) (up : Option Json) (pf : String → Option Rat) :
    get_weather lat lon up = Except.ok ⟨400, errBody⟩ ∧
    get_alerts lat lon up = ⟨400, errBody⟩ ∧
    get_crime pf lat lon = Except.ok ⟨400, errBody⟩ := by
  have hcond : (!truthy lat || !truthy lon) = true := by
    rcases h with rfl | rfl <;> simp [truthy]
  refine ⟨?_, ?_, ?_⟩ <;> simp [get_weather, get_alerts, get_crime, hcond]

/-- Witness for C1: lat missing, lon present. -/
theorem c1_missing_coord_yields_400_w :
    get_weather none (some "7") none = Except.ok ⟨400, errBody⟩ :=
  (c1_missing_coord_yields_400 none (some "7") (Or.inl rfl) none (fun _ => none)).1

/-- Claim C2: with both coordinates present, the weather endpoint answers
502 with `current: null` and an unavailability note when the fetch fails,
and on success republishes the upstream object's "current" field verbatim
(empty object when absent) with the source tag. -/
theorem c2_weather_passthrough (lat lon : Option String)
    (hla : truthy lat = true) (hlo : truthy lon = true) :
    get_weather lat lon none =
      Except.ok ⟨502, Json.obj [("current", Json.null),
        ("source", Json.str "open-meteo"), ("note", Json.str "unavailable")]⟩ ∧
    ∀ kvs : List (String × Json),
      get_weather lat lon (some (Json.obj kvs)) =
        Except.ok ⟨200, Json.obj
          [("current", (alookup "current" kvs).getD (Json.obj [])),
           ("source", Json.str "open-meteo")]⟩ := by
  constructor
  · simp [get_weather, hla, hlo]
  · intro kvs
    simp [get_weather, hla, hlo, pyDictGet]

/-- Witness for C2 at present coordinates and an unavailable upstream. -/
theorem c2_weather_passthrough_w :
    get_weather (some "1") (some "2") none =
      Except.ok ⟨502, Json.obj [("current", Json.null),
        ("source", Json.str "open-meteo"), ("note", Json.str "unavailable")]⟩ :=
  (c2_weather_passthrough (some "1") (some "2") rfl rfl).1

/-- Claim C3: with both coordinates present, the alerts endpoint answers
200 with an empty alert list when the upstream call is unavailable (never
502), and when any upstream feature fails projection it returns the empty
list rather than a partial list. -/
theorem c3_alerts_empty_on_failure (lat lon : Option String)
    (hla : truthy lat = true) (hlo : truthy lon = true) :
    get_alerts lat lon none =
      ⟨200, Json.obj [("alerts", Json.arr []), ("source", Json.str "NWS")]⟩ ∧
    (∀ (d : Json) (e : PyErr), alertsOfJson d = Except.error e →
      get_alerts lat lon (some d) =
        ⟨200, Json.obj [("alerts", Json.arr []), ("source", Json.str "NWS")]⟩) ∧
    (∀ (d : Json) (fs : List Json) (f : Json) (e : PyErr),
      jFeatures d = Except.ok fs → f ∈ fs → projectFeature f = Except.error e →
      get_alerts lat lon (some d) =
        ⟨200, Json.obj [("alerts", Json.arr []), ("source", Json.str "NWS")]⟩) := by
  refine ⟨by simp [get_alerts, hla, hlo], ?_, ?_⟩
  · intro d e he
    simp [get_alerts, hla, hlo, he]
  · intro d fs f e hfs hmem hproj
    rcases mapME_error_of_mem projectFeature fs f hmem ⟨e, hproj⟩ with ⟨e2, h2⟩
    have hd : alertsOfJson d = Except.error e2 := by simp [alertsOfJson, hfs, h2]
    simp [get_alerts, hla, hlo, hd]

/-- Witness for C3: a features list whose only element is a number, whose
projection raises and empties the result. -/
theorem c3_alerts_empty_on_failure_w :
    get_alerts (some "1") (some "2")
        (some (Json.obj [("features", Json.arr [Json.num 0])])) =
      ⟨200, Json.obj [("alerts", Json.arr []), ("source", Json.str "NWS")]⟩ :=
  (c3_alerts_empty_on_failure (some "1") (some "2") rfl rfl).2.2
    (Json.obj [("features", Json.arr [Json.num 0])]) [Json.num 0] (Json.num 0)
    PyErr.attributeError rfl (List.mem_singleton.mpr rfl) rfl

/-- Claim C4: the feed extraction maps the given well-formed item body to the
expected record, an item chunk without a complete title tag pair yields the
literal "AMBER Alert", and a missing link or description tag pair yields the
empty string. -/
theorem c4_feed_extraction :
    parseAmberItems "<item><title>Missing: Jane Doe</title><link>http://x</link><description>5yo female</description></item>" =
      [⟨"Missing: Jane Doe", "http://x", "5yo female"⟩] ∧
    (∀ chunk : List Char,
      findSub chunk "<title>".data = none ∨ findSub chunk "</title>".data = none →
      (extractItem chunk).title = "AMBER Alert") ∧
    (∀ chunk : List Char,
      findSub chunk "<link>".data = none ∨ findSub chunk "</link>".data = none →
      (extractItem chunk).link = "") ∧
    (∀ chunk : List Char,
      findSub chunk "<description>".data = none ∨
        findSub chunk "</description>".data = none →
      (extractItem chunk).description = "") := by
  refine ⟨by decide, ?_, ?_, ?_⟩
  · intro chunk h
    rcases h with h | h
    · simp [extractItem, h]
    · cases h1 : findSub chunk "<title>".data with
      | none => simp [extractItem, h1]
      | some a => simp [extractItem, h1, h]
  · intro chunk h
    rcases h with h | h
    · simp [extractItem, h]
    · cases h1 : findSub chunk "<link>".data with
      | none => simp [extractItem, h1]
      | some a => simp [extractItem, h1, h]
  · intro chunk h
    rcases h with h | h
    · simp [extractItem, h]
    · cases h1 : findSub chunk "<description>".data with
      | none => simp [extractItem, h1]
      | some a => simp [extractItem, h1, h]

/-- Witness for C4: a chunk with no tags at all gets the placeholder
title. -/
theorem c4_feed_extraction_w :
    (extractItem "no tags at all".data).title = "AMBER Alert" :=
  c4_feed_extraction.2.1 "no tags at all".data (Or.inl (by decide))


/-- Claim C5: for a coordinate inside two or more of the overlapping boxes,
the classifier resolves the code of the box whose predicate appears earliest
in the fixed source order; being a pure function of the coordinate, it
resolves the same code on every evaluation. -/
theorem c5_first_box_wins (la lo : Rat) (i j : Nat) (bi bj : Box) (ci cj : String)
    (hij : i < j)
    (hgi : stateBoxes.get? i = some (bi, ci))
    (hgj : stateBoxes.get? j = some (bj, cj))
    (hbi : inBox bi la lo = true)
    (hbj : inBox bj la lo = true)
    (hfirst : ∀ k bk ck, k < i → stateBoxes.get? k = some (bk, ck) →
      inBox bk la lo = false) :
    classifyState la lo = some ci := by
  have hfm : firstMatch (fun e => inBox e.1 la lo) stateBoxes = some (bi, ci) :=
    firstMatch_first _ stateBoxes i (bi, ci) hgi hbi
      (fun k b hk hgk => hfirst k b.1 b.2 hk hgk)
  simp [classifyState, classifyMain, hfm]

/-- Witness for C5: (33, -85) lies in the GA box (index 1) and the SC box
(index 2); the earlier GA wins. -/
theorem c5_first_box_wins_w : classifyState 33 (-85) = some "GA" :=
  c5_first_box_wins 33 (-85) 1 2 ⟨30, 35, -88, -80⟩ ⟨32, 35, -88, -80⟩ "GA" "SC"
    (by omega) rfl rfl (by decide) (by decide)
    (fun k bk ck hk hgk => by
      have hk0 : k = 0 := by omega
      subst hk0
      have h1 : stateBoxes.get? 0 = some ((⟨24.5, 31, -87.6, -80⟩ : Box), "FL") := rfl
      have h0 : ((⟨24.5, 31, -87.6, -80⟩ : Box), "FL") = (bk, ck) :=
        Option.some.inj (h1.symm.trans hgk)
      have hbk : bk = ⟨24.5, 31, -87.6, -80⟩ := (congrArg Prod.fst h0).symm
      rw [hbk]
      simp [inBox]
      norm_num)

/-- Claim C6: a coordinate resolving to a region present in the statistics
table gets exactly that table entry as `stats` with scope "state"; a
coordinate resolving to no region gets scope "demo", a null region field and
stats carrying a `year` field; and no region-scoped response's stats has a
`year` field. -/
theorem c6_crime_stats :
    (∀ (la lo : Rat) (c : String) (entry : Json),
      classifyState la lo = some c → alookup c state_crime_rates = some entry →
      jGet (get_crime_core la lo).body "scope" = some (Json.str "state") ∧
      jGet (get_crime_core la lo).body "stats" = some entry) ∧
    (∀ la lo : Rat, classifyState la lo = none →
      jGet (get_crime_core la lo).body "scope" = some (Json.str "demo") ∧
      jGet (get_crime_core la lo).body "state" = some Json.null ∧
      jGet (get_crime_core la lo).body "stats" = some demoStats ∧
      jGet demoStats "year" = some (Json.num 2023)) ∧
    (∀ (la lo : Rat) (st : Json),
      jGet (get_crime_core la lo).body "scope" = some (Json.str "state") →
      jGet (get_crime_core la lo).body "stats" = some st →
      jGet st "year" = none) := by
  have hlen2 : ∀ c : String, c ∈ classifierCodes → c.length = 2 := by
    intro c hc
    have hall := classifierCodes_ok
    rw [List.all_eq_true] at hall
    have h2 := ((Bool.and_eq_true _ _).mp (hall c hc)).1
    simpa using h2
  refine ⟨?_, ?_, ?_⟩
  · intro la lo c entry hc hl
    have hlen : c.length = 2 := hlen2 c (classifyState_mem_codes la lo c hc)
    have hcore : get_crime_core la lo =
        ⟨200, Json.obj [("scope", Json.str "state"), ("source", Json.str "mock"),
          ("state", Json.str c), ("stats", entry)]⟩ := by
      simp [get_crime_core, hc, hlen, hl]
    rw [hcore]
    exact ⟨rfl, rfl⟩
  · intro la lo h
    have hcore : get_crime_core la lo = crimeDemoResp none := by
      simp [get_crime_core, h]
    rw [hcore]
    exact ⟨rfl, rfl, rfl, rfl⟩
  · intro la lo st hscope hstats
    cases hc : classifyState la lo with
    | none =>
        have hcore : get_crime_core la lo = crimeDemoResp none := by
          simp [get_crime_core, hc]
        rw [hcore] at hscope
        have hdemo : jGet (crimeDemoResp none).body "scope" =
            some (Json.str "demo") := rfl
        rw [hdemo] at hscope
        simp at hscope
    | some c =>
        by_cases hlen : c.length = 2
        · have hcore : get_crime_core la lo =
              ⟨200, Json.obj [("scope", Json.str "state"),
                ("source", Json.str "mock"), ("state", Json.str c),
                ("stats", (alookup c state_crime_rates).getD inlineDefaultStats)]⟩ := by
            simp [get_crime_core, hc, hlen]
          rw [hcore] at hstats
          have hst : (alookup c state_crime_rates).getD inlineDefaultStats = st :=
            Option.some.inj hstats
          cases halo : alookup c state_crime_rates with
          | none =>
              rw [halo] at hst
              rw [← hst]
              rfl
          | some entry =>
              rw [halo] at hst
              have hmem : entry ∈ state_crime_rates.map Prod.snd :=
                alookup_mem_snd state_crime_rates c entry halo
              have hall := stats_values_no_year
              rw [List.all_eq_true] at hall
              have hy := hall entry hmem
              rw [← hst]
              exact Option.isNone_iff_eq_none.mp hy
        · have hcore : get_crime_core la lo = crimeDemoResp (some c) := by
            simp [get_crime_core, hc, hlen]
          rw [hcore] at hscope
          have hdemo : jGet (crimeDemoResp (some c)).body "scope" =
              some (Json.str "demo") := rfl
          rw [hdemo] at hscope
          simp at hscope

/-- Witness for C6: (33, -85) resolves to GA with state scope; (0, 0)
resolves to no region and gets the demo scope. -/
theorem c6_crime_stats_w :
    jGet (get_crime_core 33 (-85)).body "scope" = some (Json.str "state") ∧
    jGet (get_crime_core 0 0).body "scope" = some (Json.str "demo") := by
  constructor
  · have hc : classifyState 33 (-85) = some "GA" := by
      simp [classifyState, classifyMain, firstMatch, stateBoxes, inBox, phoenixBox]
      norm_num
    have hl : alookup "GA" state_crime_rates =
        some (crimeRec 7 120 220 320 850 180 347 1350) := rfl
    exact (c6_crime_stats.1 33 (-85) "GA" _ hc hl).1
  · have hc : classifyState 0 0 = none := by
      simp [classifyState, classifyMain, firstMatch, stateBoxes, inBox, phoenixBox]
      norm_num
    exact (c6_crime_stats.2.1 0 0 hc).1

/-- Claim C7 counterexample: a 304 response survives `raise_for_status`, so
`safe_get` returns it although 304 is not a 2xx status; the literal
spec-as-written reading `safe_get_specTwoXX` signals unavailable there. -/
theorem c7_fetch_2xx_cex :
    safe_get (fun _ => FetchOutcome.response 304 "redirect") =
      some (304, "redirect") ∧
    safe_get_specTwoXX (fun _ => FetchOutcome.response 304 "redirect") = none ∧
    ¬(200 ≤ 304 ∧ 304 < 300) := by
  refine ⟨rfl, ?_, by omega⟩
  simp [safe_get_specTwoXX]

/-- Claim C7 as amended: the fetch helper performs exactly one GET attempt
(its result depends only on the first attempt's outcome) and either returns
the response, when the status is not a 4xx/5xx error status, or returns the
unavailable outcome, for a raised error (connection failure, timeout,
malformed response) or a 4xx/5xx status; it never raises to its caller. -/
theorem c7_fetch_contract (attempt attempt2 : Nat → FetchOutcome)
    (s : Nat) (b : String) :
    (attempt 0 = attempt2 0 → safe_get attempt = safe_get attempt2) ∧
    (attempt 0 = FetchOutcome.raises → safe_get attempt = none) ∧
    (attempt 0 = FetchOutcome.response s b →
      (raiseForStatus s = true → safe_get attempt = none) ∧
      (raiseForStatus s = false → safe_get attempt = some (s, b))) := by
  refine ⟨?_, ?_, ?_⟩
  · intro h; simp [safe_get, h]
  · intro h; simp [safe_get, h]
  · intro h
    constructor <;> intro hr <;> simp [safe_get, h, hr]

/-- Witness for C7's amended contract: a 204 response is returned as-is. -/
theorem c7_fetch_contract_w :
    safe_get (fun _ => FetchOutcome.response 204 "no content") =
      some (204, "no content") :=
  ((c7_fetch_contract (fun _ => FetchOutcome.response 204 "no content")
      (fun _ => FetchOutcome.response 204 "no content") 204 "no content").2.2
    rfl).2 rfl

/-- Claim C8: a crime request with both coordinates present but either one
unparseable as a float raises out of the handler (no graceful client error),
while the weather and alerts endpoints never parse the coordinates and so do
not fail on the same non-numeric input. -/
theorem c8_nonnumeric_coord :
    (∀ (pf : String → Option Rat) (lat lon : Option String),
      truthy lat = true → truthy lon = true →
      pf (lat.getD "") = none ∨ pf (lon.getD "") = none →
      get_crime pf lat lon = Except.error PyErr.valueError) ∧
    parseDec "abc" = none ∧
    get_crime parseDec (some "abc") (some "40.5") =
      Except.error PyErr.valueError ∧
    get_weather (some "abc") (some "40.5") none =
      Except.ok ⟨502, Json.obj [("current", Json.null),
        ("source", Json.str "open-meteo"), ("note", Json.str "unavailable")]⟩ ∧
    get_alerts (some "abc") (some "40.5") none =
      ⟨200, Json.obj [("alerts", Json.arr []), ("source", Json.str "NWS")]⟩ := by
  refine ⟨?_, rfl, rfl, rfl, rfl⟩
  intro pf lat lon hla hlo h
  have hcond : (!truthy lat || !truthy lon) = false := by simp [hla, hlo]
  rcases h with h | h
  · cases h2 : pf (lon.getD "") <;> simp [get_crime, hcond, h, h2]
  · cases h1 : pf (lat.getD "") <;> simp [get_crime, hcond, h, h1]

/-- Witness for C8: an always-failing parse makes the crime handler raise. -/
theorem c8_nonnumeric_coord_w :
    get_crime (fun _ => none) (some "x") (some "y") =
      Except.error PyErr.valueError :=
  c8_nonnumeric_coord.1 (fun _ => none) (some "x") (some "y") rfl rfl (Or.inl rfl)

/-- Claim C9: the classifier with the Phoenix-area catch-all computes the
same region code as the chain without it, for every coordinate: the
catch-all box is contained in the earlier AZ box, so whenever the catch-all
would fire the chain has already matched. -/
theorem c9_catchall_redundant (la lo : Rat) :
    classifyState la lo = classifyMain la lo := by
  unfold classifyState
  cases hm : classifyMain la lo with
  | some s => rfl
  | none =>
      cases hb : inBox phoenixBox la lo with
      | false => simp [hb]
      | true =>
          exfalso
          have hbx : (33 : Rat) ≤ la ∧ la ≤ 34 ∧ (-112.5 : Rat) ≤ lo ∧ lo ≤ -111 :=
            (inBox_iff phoenixBox la lo).mp hb
          obtain ⟨h1, h2, h3, h4⟩ := hbx
          have hmem : ((⟨31, 37, -114, -109⟩ : Box), "AZ") ∈ stateBoxes := by
            simp [stateBoxes]
          have hfind : firstMatch (fun e => inBox e.1 la lo) stateBoxes = none := by
            have hm2 := hm
            unfold classifyMain at hm2
            exact Option.map_eq_none'.mp hm2
          have haz := firstMatch_none _ _ hfind
            ((⟨31, 37, -114, -109⟩ : Box), "AZ") hmem
          have htrue : inBox (⟨31, 37, -114, -109⟩ : Box) la lo = true := by
            rw [inBox_iff]
            show (31 : Rat) ≤ la ∧ la ≤ 37 ∧ (-114 : Rat) ≤ lo ∧ lo ≤ -109
            refine ⟨by linarith, by linarith, by linarith, by linarith⟩
          rw [htrue] at haz
          exact Bool.noConfusion haz

/-- Claim C10: every region code the classifier can produce is a key of the
statistics table, so the region-resolved branch always serves a table entry
and its generic inline default record is dead for every input coordinate. -/
theorem c10_codes_in_table (la lo : Rat) (c : String)
    (h : classifyState la lo = some c) :
    (alookup c state_crime_rates).isSome = true ∧
    jGet (get_crime_core la lo).body "stats" = alookup c state_crime_rates := by
  have hcm := classifyState_mem_codes la lo c h
  have hall := classifierCodes_ok
  rw [List.all_eq_true] at hall
  have hc2 := (Bool.and_eq_true _ _).mp (hall c hcm)
  refine ⟨hc2.2, ?_⟩
  have hlen : c.length = 2 := by simpa using hc2.1
  cases halo : alookup c state_crime_rates with
  | none => rw [halo] at hc2; simp at hc2
  | some entry =>
      have hcore : get_crime_core la lo =
          ⟨200, Json.obj [("scope", Json.str "state"), ("source", Json.str "mock"),
            ("state", Json.str c), ("stats", entry)]⟩ := by
        simp [get_crime_core, h, hlen, halo]
      rw [hcore]
      rfl

/-- Witness for C10: (40, -74) resolves to PA, a key of the table. -/
theorem c10_codes_in_table_w :
    (alookup "PA" state_crime_rates).isSome = true :=
  (c10_codes_in_table 40 (-74) "PA" (by
    simp [classifyState, classifyMain, firstMatch, stateBoxes, inBox, phoenixBox]
    norm_num)).1
